import Mathlib

/-!
Verification development for the device_monitor service: a shallow embedding
of its data-access-and-validation core (entity models, repositories,
validators, services, and the request transaction boundary), followed by
theorems settling the specification's claims against it.

Conventions of the embedding:
* Database identifiers (`uuid.UUID` primary keys, 128-bit random values in
  the source) are modelled as abstract `Nat` ids; nothing in the core
  inspects their structure, only equality.
* Floating-point columns (`voltage`, `residual_capacity`, `lifespan`) are
  modelled as `ℚ`: the core never computes with them, it only stores them
  and compares them with 0 at the validation boundary.
* Python `X | None` values are modelled as `Option X`; a Python function
  that can raise is modelled as `Except`.
* The database state is the pair of tables (`devices`, `batteries`) as
  lists of rows, plus the id source for generated primary keys.
-/

deriving instance DecidableEq for Except

abbrev UUID := Nat

/-- Fastapi `HTTPException`: an HTTP status code plus the `detail` payload
(modelled as the detail string). -/
structure HTTPException where
  status_code : Nat
  detail : String
deriving DecidableEq, Repr

/-- Storage-level faults raised by the database driver during a flush or a
result-row fetch: constraint violations (`IntegrityError`) and
`MultipleResultsFound` from `scalar_one_or_none`. -/
inductive DBError where
  | integrityError
  | multipleResultsFound
deriving DecidableEq, Repr

/-- Faults that can escape a service operation: an `HTTPException` raised by
a validator, or a storage fault propagated from the driver. -/
inductive Fault where
  | http (e : HTTPException)
  | storage (e : DBError)
deriving DecidableEq, Repr

/-- Row of the `batteries` table (database/models.py `Battery`): name, the
three numeric columns, and the nullable `device_id` foreign key into the
`devices` table. The numeric columns themselves carry no storage-level
non-negativity constraint. -/
structure Battery where
  id : UUID
  name : String
  voltage : ℚ
  residual_capacity : ℚ
  lifespan : ℚ
  device_id : Option UUID
deriving DecidableEq, Repr

/-- Row of the `devices` table (database/models.py `Device`): unique `name`,
free-form `firmware_version`, boolean `status`. The `batteries` relationship
is derived from the `batteries` table (`device_id` back-reference), not
stored on the row. -/
structure Device where
  id : UUID
  name : String
  firmware_version : String
  status : Bool
deriving DecidableEq, Repr

/-- Database state: the two tables as lists of rows, plus `next_id`, the
source of generated primary keys. Modelled from the spec: the declarative
base class supplying the generated-on-creation primary key (imported as
`device_monitor.database.base.Base`) is not among the sources; the spec says
ids are globally unique values generated on creation, modelled here by
handing out `next_id` and incrementing it. -/
structure DBState where
  devices : List Device
  batteries : List Battery
  next_id : UUID
deriving DecidableEq, Repr

/-- Batteries currently associated with a device: the `Device.batteries`
relationship (`back_populates="device"`, loaded eagerly via `selectin`). -/
def Device.loaded_batteries (st : DBState) (d : Device) : List Battery :=
  st.batteries.filter (fun b => b.device_id = some d.id)

/-- Well-formedness the external database guarantees about any committed
state: primary keys are unique in each table, generated ids are fresh
(every stored id is below `next_id`), the `devices.name` column's `unique`
constraint holds, and every non-null `device_id` references a device row. -/
def WF (st : DBState) : Prop :=
  (st.devices.map Device.id).Nodup ∧
  (st.batteries.map Battery.id).Nodup ∧
  (st.devices.map Device.name).Nodup ∧
  (∀ d ∈ st.devices, d.id < st.next_id) ∧
  (∀ b ∈ st.batteries, b.id < st.next_id) ∧
  (∀ b ∈ st.batteries, ∀ i, b.device_id = some i → ∃ d ∈ st.devices, d.id = i)

instance : DecidablePred WF := fun st => by
  unfold WF
  infer_instance

/-! ### Pydantic schemas (schemas.py) and their validation boundary

Each schema is modelled as the record of its validated field values, and the
route boundary's parsing of a raw JSON payload into the schema is modelled
by an explicit `parse…` function that enforces the pydantic constraints
(`NonNegativeFloat`, required fields, defaults, `exclude_unset` tracking).
-/

/-- schemas.py `DeviceCreate`: required `name` and `firmware_version`,
`status` defaulting to `False` (the default is applied at parse time, so
every validated instance carries a concrete `status`). -/
structure DeviceCreate where
  name : String
  firmware_version : String
  status : Bool
deriving DecidableEq, Repr

/-- schemas.py `DeviceUpdate`: `name` and `firmware_version` are required
(always present in the validated payload); `status` has a default, so
`model_dump(exclude_unset=True)` omits it unless the client sent it —
modelled as `Option Bool`, `none` meaning "not explicitly set". -/
structure DeviceUpdate where
  name : String
  firmware_version : String
  status : Option Bool
deriving DecidableEq, Repr

/-- schemas.py `BatteryCreate`: required `name` and the three
`NonNegativeFloat` columns. The schema has no `device_id` field. -/
structure BatteryCreate where
  name : String
  voltage : ℚ
  residual_capacity : ℚ
  lifespan : ℚ
deriving DecidableEq, Repr

/-- schemas.py `BatteryUpdate`: every field optional with default `None`,
so `model_dump(exclude_unset=True)` keeps exactly the fields the client
sent. A scalar field is modelled as `Option value` (`none` = absent from
the payload); `device_id` is modelled as `Option (Option UUID)` because an
explicitly sent `null` (dissociation) is distinct from absence. An explicit
JSON `null` for one of the non-nullable scalar columns is not modelled: it
would only trip the storage NOT NULL constraint. -/
structure BatteryUpdate where
  name : Option String
  voltage : Option ℚ
  residual_capacity : Option ℚ
  lifespan : Option ℚ
  device_id : Option (Option UUID)
deriving DecidableEq, Repr

/-- Validation failure produced by pydantic when a request payload violates
a schema constraint; carries the offending field's name. -/
inductive ValidationError where
  | notNonNegative (field : String)
deriving DecidableEq, Repr

/-- Raw JSON payload of a battery-creation request, before validation. The
`device_id` member models a client sending such a key: `BatteryCreate`
declares no such field and pydantic's default `extra` policy ignores
unknown keys, so parsing drops it. -/
structure RawBatteryCreate where
  name : String
  voltage : ℚ
  residual_capacity : ℚ
  lifespan : ℚ
  device_id : Option UUID
deriving DecidableEq, Repr

/-- Pydantic validation of a `BatteryCreate` payload: each of the three
numeric fields must be a `NonNegativeFloat`; the unknown `device_id` key is
ignored. -/
def parseBatteryCreate (r : RawBatteryCreate) : Except ValidationError BatteryCreate :=
  if r.voltage < 0 then .error (.notNonNegative "voltage")
  else if r.residual_capacity < 0 then .error (.notNonNegative "residual_capacity")
  else if r.lifespan < 0 then .error (.notNonNegative "lifespan")
  else .ok ⟨r.name, r.voltage, r.residual_capacity, r.lifespan⟩

/-- Raw JSON payload of a battery-update request: any subset of the fields
may be present. -/
structure RawBatteryUpdate where
  name : Option String
  voltage : Option ℚ
  residual_capacity : Option ℚ
  lifespan : Option ℚ
  device_id : Option (Option UUID)
deriving DecidableEq, Repr

/-- Pydantic validation of a `BatteryUpdate` payload: every numeric field
that is present must be a `NonNegativeFloat`. -/
def parseBatteryUpdate (r : RawBatteryUpdate) : Except ValidationError BatteryUpdate :=
  if ∃ q ∈ r.voltage, q < 0 then .error (.notNonNegative "voltage")
  else if ∃ q ∈ r.residual_capacity, q < 0 then .error (.notNonNegative "residual_capacity")
  else if ∃ q ∈ r.lifespan, q < 0 then .error (.notNonNegative "lifespan")
  else .ok ⟨r.name, r.voltage, r.residual_capacity, r.lifespan, r.device_id⟩

/-- Raw JSON payload of a device-creation request: `status` may be omitted,
in which case the schema default `False` applies. -/
structure RawDeviceCreate where
  name : String
  firmware_version : String
  status : Option Bool
deriving DecidableEq, Repr

/-- Pydantic validation of a `DeviceCreate` payload: no value constraints;
an omitted `status` defaults to `False`. -/
def parseDeviceCreate (r : RawDeviceCreate) : DeviceCreate :=
  ⟨r.name, r.firmware_version, r.status.getD false⟩

/-- Raw JSON payload of a device-update request: `name` and
`firmware_version` are required, `status` may be omitted (and is then unset
for `exclude_unset` purposes). -/
structure RawDeviceUpdate where
  name : String
  firmware_version : String
  status : Option Bool
deriving DecidableEq, Repr

/-- Pydantic validation of a `DeviceUpdate` payload: no value constraints;
set-ness of `status` is preserved for `model_dump(exclude_unset=True)`. -/
def parseDeviceUpdate (r : RawDeviceUpdate) : DeviceUpdate :=
  ⟨r.name, r.firmware_version, r.status⟩

/-! ### Repositories (crud.py)

`BaseRepository` is generic over the model; its two instantiations
(`BatteryRepository`, `DeviceRepository`) are embedded as the corresponding
concrete operations on `DBState`. Each mutating operation also performs the
constraint checks the `flush` hands to the database: the `devices.name`
unique constraint and the `batteries.device_id` foreign key.
-/

/-- sqlalchemy `Result.scalar_one_or_none` on the rows a query returned:
`none` for no row, the row for exactly one, `MultipleResultsFound` for
more. -/
def scalar_one_or_none {α : Type} : List α → Except DBError (Option α)
  | [] => .ok none
  | [a] => .ok (some a)
  | _ :: _ :: _ => .error .multipleResultsFound

/-- crud.py `BaseRepository.create` for `Battery`: builds a row from
`data.model_dump()` — `BatteryCreate` has no `device_id` member, so the
nullable column gets NULL — with a generated primary key, and inserts it at
flush (no constraint can fail on such a row). -/
def BatteryRepository.create (st : DBState) (data : BatteryCreate) : Battery × DBState :=
  let data_obj : Battery :=
    { id := st.next_id
      name := data.name
      voltage := data.voltage
      residual_capacity := data.residual_capacity
      lifespan := data.lifespan
      device_id := none }
  (data_obj, { st with batteries := st.batteries ++ [data_obj], next_id := st.next_id + 1 })

/-- crud.py `BaseRepository.get_all` for `Battery`. -/
def BatteryRepository.get_all (st : DBState) : List Battery :=
  st.batteries

/-- crud.py `BaseRepository.get_by_id` for `Battery`: select by primary key,
then `scalar_one_or_none`. -/
def BatteryRepository.get_by_id (st : DBState) (obj_id : UUID) : Except DBError (Option Battery) :=
  scalar_one_or_none (st.batteries.filter (fun b => b.id == obj_id))

/-- crud.py `BaseRepository.update` field application: the loop
`for field, value in data.model_dump(exclude_unset=True).items():
setattr(db_obj, field, value)` — exactly the explicitly-set fields
overwrite, everything else keeps its prior value. -/
def BatteryUpdate.apply (data : BatteryUpdate) (db_obj : Battery) : Battery :=
  { db_obj with
    name := data.name.getD db_obj.name
    voltage := data.voltage.getD db_obj.voltage
    residual_capacity := data.residual_capacity.getD db_obj.residual_capacity
    lifespan := data.lifespan.getD db_obj.lifespan
    device_id := data.device_id.getD db_obj.device_id }

/-- crud.py `BaseRepository.update` for `Battery`: applies the set fields to
the row, then flushes; the flush enforces the `device_id` foreign key (a
non-null `device_id` must reference an existing device row). No capacity
check happens here or anywhere on this path. -/
def BatteryRepository.update (st : DBState) (db_obj : Battery) (data : BatteryUpdate) :
    Except DBError (Battery × DBState) :=
  if (data.apply db_obj).device_id.all (fun i => st.devices.any (fun d => d.id == i)) then
    .ok (data.apply db_obj,
      { st with batteries := st.batteries.map (fun b =>
          if b.id == db_obj.id then data.apply db_obj else b) })
  else .error .integrityError

/-- crud.py `BaseRepository.remove` for `Battery`: deletes the row, returns
the object as it was before deletion. -/
def BatteryRepository.remove (st : DBState) (db_obj : Battery) : Battery × DBState :=
  (db_obj, { st with batteries := st.batteries.filter (fun b => b.id != db_obj.id) })

/-- crud.py `BaseRepository.create` for `Device`: builds a row with a
generated primary key and inserts it at flush; the flush enforces the
`devices.name` unique constraint. Note the service calls this directly —
no name pre-check runs before the insert. -/
def DeviceRepository.create (st : DBState) (data : DeviceCreate) : Except DBError (Device × DBState) :=
  if st.devices.any (fun d => d.name == data.name) then .error .integrityError
  else
    let data_obj : Device :=
      { id := st.next_id
        name := data.name
        firmware_version := data.firmware_version
        status := data.status }
    .ok (data_obj, { st with devices := st.devices ++ [data_obj], next_id := st.next_id + 1 })

/-- crud.py `BaseRepository.get_all` for `Device`. -/
def DeviceRepository.get_all (st : DBState) : List Device :=
  st.devices

/-- crud.py `BaseRepository.get_by_id` for `Device`. -/
def DeviceRepository.get_by_id (st : DBState) (obj_id : UUID) : Except DBError (Option Device) :=
  scalar_one_or_none (st.devices.filter (fun d => d.id == obj_id))

/-- crud.py `DeviceRepository.get_by_name`: exact-match select on the `name`
column, then `scalar_one_or_none`. -/
def DeviceRepository.get_by_name (st : DBState) (device_name : String) : Except DBError (Option Device) :=
  scalar_one_or_none (st.devices.filter (fun d => d.name == device_name))

/-- crud.py `BaseRepository.update` field application for `Device`:
`name` and `firmware_version` are always in the `exclude_unset` dump
(required fields); `status` only when explicitly set. -/
def DeviceUpdate.apply (data : DeviceUpdate) (db_obj : Device) : Device :=
  { db_obj with
    name := data.name
    firmware_version := data.firmware_version
    status := data.status.getD db_obj.status }

/-- crud.py `BaseRepository.update` for `Device`: applies the set fields,
then flushes; the flush enforces the `devices.name` unique constraint
against the other rows. -/
def DeviceRepository.update (st : DBState) (db_obj : Device) (data : DeviceUpdate) :
    Except DBError (Device × DBState) :=
  if st.devices.any (fun d => d.id != db_obj.id && d.name == (data.apply db_obj).name) then
    .error .integrityError
  else
    .ok (data.apply db_obj,
      { st with devices := st.devices.map (fun d =>
          if d.id == db_obj.id then data.apply db_obj else d) })

/-- crud.py `BaseRepository.remove` for `Device`: deletes the device row.
The `Device.batteries` relationship is configured with
`cascade="save-update"` (no delete cascade) and `lazy="selectin"`, so the
associated batteries are loaded in the session when the device was fetched
and the unit of work dis-associates them: their `device_id` is set to NULL;
the battery rows themselves survive. -/
def DeviceRepository.remove (st : DBState) (db_obj : Device) : Device × DBState :=
  (db_obj,
    { st with
      devices := st.devices.filter (fun d => d.id != db_obj.id)
      batteries := st.batteries.map (fun b =>
        if b.device_id == some db_obj.id then { b with device_id := none } else b) })

/-! ### Validators (validators.py) -/

/-- validators.py `MAX_BATTERIES_PER_DEVICE`. -/
def MAX_BATTERIES_PER_DEVICE : Nat := 5

/-- validators.py `check_object_exists`: runs the repository id lookup
(given here as its result) and raises a 404 `HTTPException` with detail
"Object not found" when nothing came back; otherwise returns the object. A
storage fault from the lookup propagates. -/
def check_object_exists {α : Type} (lookup : Except DBError (Option α)) : Except Fault α :=
  match lookup with
  | .error e => .error (.storage e)
  | .ok none => .error (.http ⟨404, "Object not found"⟩)
  | .ok (some obj) => .ok obj

/-- validators.py `check_device_name_duplicate`: looks the name up and
raises a 400 `HTTPException` when a device with it exists. Defined in the
source but never called from any service or route. -/
def check_device_name_duplicate (st : DBState) (name : String) : Except Fault Unit :=
  match DeviceRepository.get_by_name st name with
  | .error e => .error (.storage e)
  | .ok (some _) => .error (.http ⟨400,
      "A device with that name already exists. The device name must be unique."⟩)
  | .ok none => .ok ()

/-- validators.py `check_limit_batteries_per_device`: counts
`device.batteries` and raises a 400 `HTTPException` whose detail embeds the
limit when the count is at or above it. Defined in the source but never
called from any service or route. -/
def check_limit_batteries_per_device (st : DBState) (device : Device) (limitation : Nat) :
    Except Fault Unit :=
  let batteries_count := (device.loaded_batteries st).length
  if batteries_count ≥ limitation then
    .error (.http ⟨400,
      "No more than " ++ toString limitation ++ " batteries can be connected to the device."⟩)
  else .ok ()

/-! ### Services (services.py)

The service return types mirror the Python annotations: the three
id-scoped operations are declared `-> Battery | None` (resp.
`-> Device | None`), so their embedded results are `Option`-valued, with
the value the implementation actually returns wrapped in `some`.
-/

/-- services.py `BatteryService.get_all`: delegates to the repository. -/
def BatteryService.get_all (st : DBState) : List Battery :=
  BatteryRepository.get_all st

/-- services.py `BatteryService.create`: delegates straight to the
repository — no pre-check of any kind. -/
def BatteryService.create (st : DBState) (data : BatteryCreate) : Battery × DBState :=
  BatteryRepository.create st data

/-- services.py `BatteryService.get_by_id`: `check_object_exists` then
return the found battery. -/
def BatteryService.get_by_id (st : DBState) (id_ : UUID) : Except Fault (Option Battery) := do
  let battery ← check_object_exists (BatteryRepository.get_by_id st id_)
  return some battery

/-- services.py `BatteryService.update`: `check_object_exists`, then the
repository update. `check_limit_batteries_per_device` is not called, even
when the payload associates the battery to a device. -/
def BatteryService.update (st : DBState) (id_ : UUID) (data : BatteryUpdate) :
    Except Fault (Option Battery × DBState) := do
  let battery ← check_object_exists (BatteryRepository.get_by_id st id_)
  match BatteryRepository.update st battery data with
  | .error e => .error (.storage e)
  | .ok (updated, st') => return (some updated, st')

/-- services.py `BatteryService.remove`: `check_object_exists`, then the
repository delete. -/
def BatteryService.remove (st : DBState) (id_ : UUID) :
    Except Fault (Option Battery × DBState) := do
  let battery ← check_object_exists (BatteryRepository.get_by_id st id_)
  let (removed, st') := BatteryRepository.remove st battery
  return (some removed, st')

/-- services.py `DeviceService.get_all`: delegates to the repository. -/
def DeviceService.get_all (st : DBState) : List Device :=
  DeviceRepository.get_all st

/-- services.py `DeviceService.create`: delegates straight to the
repository — `check_device_name_duplicate` is not called; a duplicate name
only fails at flush, as a storage `IntegrityError`. -/
def DeviceService.create (st : DBState) (data : DeviceCreate) : Except Fault (Device × DBState) :=
  match DeviceRepository.create st data with
  | .error e => .error (.storage e)
  | .ok result => .ok result

/-- services.py `DeviceService.get_by_id`: `check_object_exists` then
return the found device. -/
def DeviceService.get_by_id (st : DBState) (id_ : UUID) : Except Fault (Option Device) := do
  let device ← check_object_exists (DeviceRepository.get_by_id st id_)
  return some device

/-- services.py `DeviceService.update`: `check_object_exists`, then the
repository update. -/
def DeviceService.update (st : DBState) (id_ : UUID) (data : DeviceUpdate) :
    Except Fault (Option Device × DBState) := do
  let device ← check_object_exists (DeviceRepository.get_by_id st id_)
  match DeviceRepository.update st device data with
  | .error e => .error (.storage e)
  | .ok (updated, st') => return (some updated, st')

/-- services.py `DeviceService.remove`: `check_object_exists`, then the
repository delete (which dis-associates the loaded batteries). -/
def DeviceService.remove (st : DBState) (id_ : UUID) :
    Except Fault (Option Device × DBState) := do
  let device ← check_object_exists (DeviceRepository.get_by_id st id_)
  let (removed, st') := DeviceRepository.remove st device
  return (some removed, st')

/-! ### Request boundary (routers + dependencies.py)

A mutating request parses its JSON payload through the pydantic schema,
runs the service operation inside the session from `get_db_session`, and
commits on success or rolls back on any raised fault — so a failed request
leaves the committed state unchanged.
-/

/-- Mutating request reaching the public boundary, with its raw payload. -/
inductive Op where
  | createBattery (r : RawBatteryCreate)
  | updateBattery (i : UUID) (r : RawBatteryUpdate)
  | removeBattery (i : UUID)
  | createDevice (r : RawDeviceCreate)
  | updateDevice (i : UUID) (r : RawDeviceUpdate)
  | removeDevice (i : UUID)
deriving DecidableEq, Repr

/-- Committed state after one request: pydantic validation gates the
payload, then the service runs in the request's transaction; a validation
error or a raised fault rolls the transaction back (dependencies.py
`get_db_session`), leaving the prior state. -/
def runOp (st : DBState) : Op → DBState
  | .createBattery r =>
    match parseBatteryCreate r with
    | .error _ => st
    | .ok data => (BatteryService.create st data).2
  | .updateBattery i r =>
    match parseBatteryUpdate r with
    | .error _ => st
    | .ok data =>
      match BatteryService.update st i data with
      | .ok (_, st') => st'
      | .error _ => st
  | .removeBattery i =>
    match BatteryService.remove st i with
    | .ok (_, st') => st'
    | .error _ => st
  | .createDevice r =>
    match DeviceService.create st (parseDeviceCreate r) with
    | .ok (_, st') => st'
    | .error _ => st
  | .updateDevice i r =>
    match DeviceService.update st i (parseDeviceUpdate r) with
    | .ok (_, st') => st'
    | .error _ => st
  | .removeDevice i =>
    match DeviceService.remove st i with
    | .ok (_, st') => st'
    | .error _ => st

/-- Committed state after a sequence of requests. -/
def runOps (st : DBState) (ops : List Op) : DBState :=
  ops.foldl runOp st

/-- State of a freshly created, empty database. -/
def emptyState : DBState :=
  { devices := [], batteries := [], next_id := 0 }

/-! ### Concrete fixtures

States used by the closed theorems: the spec's own scenario (a device
`sensor-1` and batteries `cell-a`), with abstract ids 0, 1, 2, …
-/

/-- Device fixture: the spec's `sensor-1`. -/
def devA : Device :=
  { id := 0, name := "sensor-1", firmware_version := "1.0", status := false }

/-- Battery fixture: the spec's `cell-a` with a chosen id and association
(integer-valued rationals keep the closed proofs kernel-evaluable). -/
def cell (i : UUID) (dev : Option UUID) : Battery :=
  { id := i, name := "cell-a", voltage := 4, residual_capacity := 2,
    lifespan := 500, device_id := dev }

/-- State holding `sensor-1` alone. -/
def stOneDevice : DBState :=
  { devices := [devA], batteries := [], next_id := 1 }

/-- State where `sensor-1` has exactly 5 associated batteries and a sixth
battery exists unassociated. -/
def stFive : DBState :=
  { devices := [devA]
    batteries := [cell 1 (some 0), cell 2 (some 0), cell 3 (some 0),
                  cell 4 (some 0), cell 5 (some 0), cell 6 none]
    next_id := 7 }

/-- State where `sensor-1` has exactly 4 associated batteries and a fifth
battery exists unassociated. -/
def stFour : DBState :=
  { devices := [devA]
    batteries := [cell 1 (some 0), cell 2 (some 0), cell 3 (some 0),
                  cell 4 (some 0), cell 6 none]
    next_id := 7 }

/-- Update payload that only associates the battery to `sensor-1`. -/
def attachToDevA : BatteryUpdate :=
  { name := none, voltage := none, residual_capacity := none, lifespan := none,
    device_id := some (some 0) }

/-- Expected state after attaching the sixth battery to `sensor-1`. -/
def stFiveAttached : DBState :=
  { devices := [devA]
    batteries := [cell 1 (some 0), cell 2 (some 0), cell 3 (some 0),
                  cell 4 (some 0), cell 5 (some 0), cell 6 (some 0)]
    next_id := 7 }

/-- Battery-creation payload that supplies `device_id = 0`, the id of the
existing device `sensor-1`. -/
def rawCellForDevA : RawBatteryCreate :=
  { name := "cell-a", voltage := 4, residual_capacity := 2, lifespan := 500,
    device_id := some 0 }

/-- Non-negativity invariant of the battery table: what the spec asserts of
every battery record reachable at the public boundary. -/
def BatteryInv (st : DBState) : Prop :=
  ∀ b ∈ st.batteries, 0 ≤ b.voltage ∧ 0 ≤ b.residual_capacity ∧ 0 ≤ b.lifespan

/-! ### General lemmas on keyed lookups

The repositories select rows by a key (`id`, `name`) and fetch the result
with `scalar_one_or_none`; these lemmas cover such lookups in tables whose
key column is duplicate-free.
-/

/-- Filtering on a key no row of the list has yields nothing. -/
theorem filter_key_eq_nil {α κ : Type} [BEq κ] [LawfulBEq κ] (key : α → κ)
    (l : List α) (k : κ) (h : ∀ x ∈ l, key x ≠ k) :
    l.filter (fun x => key x == k) = [] := by
  rw [List.filter_eq_nil_iff]
  intro a ha
  simp [h a ha]

/-- Filtering a duplicate-free-keyed list on the key of one of its members
yields exactly that member. -/
theorem filter_key_of_nodup {α κ : Type} [BEq κ] [LawfulBEq κ] (key : α → κ)
    (l : List α) (hnd : (l.map key).Nodup) {a : α} (ha : a ∈ l) :
    l.filter (fun x => key x == key a) = [a] := by
  induction l with
  | nil => cases ha
  | cons x xs ih =>
    rw [List.map_cons, List.nodup_cons] at hnd
    rcases List.mem_cons.mp ha with h | hmem
    · subst h
      simp only [List.filter_cons]
      rw [if_pos (by simp)]
      rw [filter_key_eq_nil key xs (key a) ?_]
      intro y hy hk
      exact hnd.1 (hk ▸ List.mem_map_of_mem key hy)
    · have hne : ¬ ((key x == key a) = true) := by
        simp only [beq_iff_eq]
        intro hk
        exact hnd.1 (hk ▸ List.mem_map_of_mem key hmem)
      simp only [List.filter_cons]
      rw [if_neg hne]
      exact ih hnd.2 hmem

/-- In a duplicate-free-keyed list, a key filter keeps at most one row. -/
theorem length_filter_key_le_one {α κ : Type} [BEq κ] [LawfulBEq κ] (key : α → κ)
    (l : List α) (hnd : (l.map key).Nodup) (k : κ) :
    (l.filter (fun x => key x == k)).length ≤ 1 := by
  induction l with
  | nil => simp
  | cons x xs ih =>
    rw [List.map_cons, List.nodup_cons] at hnd
    by_cases hx : (key x == k) = true
    · simp only [List.filter_cons]
      rw [if_pos hx]
      rw [filter_key_eq_nil key xs k ?_]
      · simp
      · intro y hy hk
        have hxk : key x = k := by simpa using hx
        have : key y = key x := hk.trans hxk.symm
        exact hnd.1 (this ▸ List.mem_map_of_mem key hy)
    · simp only [List.filter_cons]
      rw [if_neg hx]
      exact ih hnd.2

/-- A list holding at most one row fetches cleanly. -/
theorem scalar_one_or_none_ok_of_len_le_one {α : Type} (l : List α) (h : l.length ≤ 1) :
    ∃ r, scalar_one_or_none l = .ok r := by
  match l with
  | [] => exact ⟨none, rfl⟩
  | [a] => exact ⟨some a, rfl⟩
  | a :: b :: t => simp at h

/-- A fetch that yielded a row was a singleton select of that row. -/
theorem scalar_one_or_none_ok_some {α : Type} (l : List α) (a : α)
    (h : scalar_one_or_none l = .ok (some a)) : l = [a] := by
  match l with
  | [] => simp [scalar_one_or_none] at h
  | [x] =>
    simp only [scalar_one_or_none, Except.ok.injEq, Option.some.injEq] at h
    rw [h]
  | x :: y :: t => simp [scalar_one_or_none] at h

/-- A fetch that yielded nothing was an empty select. -/
theorem scalar_one_or_none_ok_none {α : Type} (l : List α)
    (h : scalar_one_or_none l = .ok none) : l = [] := by
  match l with
  | [] => rfl
  | [x] => simp [scalar_one_or_none] at h
  | x :: y :: t => simp [scalar_one_or_none] at h

/-- A key lookup over a duplicate-free-keyed list finds a member row. -/
theorem scalar_filter_found {α κ : Type} [BEq κ] [LawfulBEq κ] (key : α → κ)
    (l : List α) (hnd : (l.map key).Nodup) {a : α} (ha : a ∈ l) :
    scalar_one_or_none (l.filter (fun x => key x == key a)) = .ok (some a) := by
  rw [filter_key_of_nodup key l hnd ha]
  rfl

/-! ### Claim C1 -/

/-- C1: the claim says a device with exactly 5 associated batteries rejects
a 6th association attempted via the battery-mutation path with
CapacityExceeded. On the code the attach succeeds: `BatteryService.update`
(and `BatteryService.create`) never invoke
`check_limit_batteries_per_device`, so attaching the 6th battery to
`sensor-1` returns the re-associated battery and commits a state in which
the device holds 6 batteries — while the (never-called) validator, run on
the same state, would have raised the 400 CapacityExceeded fault whose
message carries the limit, and would have accepted the attach at 4. -/
theorem c1_capacity_limit_not_enforced :
    BatteryService.update stFive 6 attachToDevA =
      .ok (some (cell 6 (some 0)), stFiveAttached) ∧
    (devA.loaded_batteries stFiveAttached).length = 6 ∧
    runOp stFive (.updateBattery 6
      { name := none, voltage := none, residual_capacity := none, lifespan := none,
        device_id := some (some 0) }) = stFiveAttached ∧
    check_limit_batteries_per_device stFive devA MAX_BATTERIES_PER_DEVICE =
      .error (.http ⟨400, "No more than 5 batteries can be connected to the device."⟩) ∧
    check_limit_batteries_per_device stFour devA MAX_BATTERIES_PER_DEVICE = .ok () := by
  decide

/-! ### Claim C2 -/

/-- C2: the claim says the device create operation runs the name-uniqueness
check before inserting and fails with a Conflict condition. On the code
`DeviceService.create` delegates straight to the repository insert:
creating a second `sensor-1` fails only at flush as a storage
`IntegrityError` (a server fault, not the validator's Conflict
`HTTPException`), the transaction rolls back so no row is committed, and
the (never-called) `check_device_name_duplicate`, run on the same state,
would have raised the 400 Conflict fault. -/
theorem c2_name_uniqueness_not_prechecked :
    DeviceService.create stOneDevice
      { name := "sensor-1", firmware_version := "2.0", status := false } =
      .error (.storage .integrityError) ∧
    runOp stOneDevice (.createDevice
      { name := "sensor-1", firmware_version := "2.0", status := some false }) = stOneDevice ∧
    check_device_name_duplicate stOneDevice "sensor-1" =
      .error (.http ⟨400,
        "A device with that name already exists. The device name must be unique."⟩) := by
  decide

/-! ### Claim C6 -/

/-- C6 counterexample: a creation request supplying the id of an existing
device still yields a battery with `device_id = none` — `BatteryCreate`
declares no `device_id` field, so the supplied value is dropped at
validation and the new row's nullable column stays NULL. A battery can
therefore not be created already associated. -/
theorem c6_counterexample_supplied_device_id_ignored :
    rawCellForDevA.device_id = some 0 ∧
    devA ∈ stOneDevice.devices ∧ devA.id = 0 ∧
    parseBatteryCreate rawCellForDevA =
      .ok { name := "cell-a", voltage := 4, residual_capacity := 2, lifespan := 500 } ∧
    (BatteryService.create stOneDevice
      { name := "cell-a", voltage := 4, residual_capacity := 2, lifespan := 500 }).1.device_id
      = none := by
  decide

/-- C6 as amended: every battery created through the service has
`device_id = none` (and the caller-supplied fields of the input); the
creation schema carries no `device_id`, so validation of any raw creation
payload produces a schema instance made only of `name` and the three
numeric fields, a supplied `device_id` being ignored. Association is
established only through the update path. -/
theorem c6_create_device_id_always_null (st : DBState) (data : BatteryCreate) :
    (BatteryService.create st data).1.device_id = none ∧
    (BatteryService.create st data).1.name = data.name ∧
    (BatteryService.create st data).1.voltage = data.voltage ∧
    (BatteryService.create st data).1.residual_capacity = data.residual_capacity ∧
    (BatteryService.create st data).1.lifespan = data.lifespan ∧
    (∀ r : RawBatteryCreate, ∀ d : BatteryCreate, parseBatteryCreate r = .ok d →
      d = { name := r.name, voltage := r.voltage,
            residual_capacity := r.residual_capacity, lifespan := r.lifespan }) := by
  refine ⟨rfl, rfl, rfl, rfl, rfl, ?_⟩
  intro r d h
  unfold parseBatteryCreate at h
  split at h
  · exact absurd h (by simp)
  · split at h
    · exact absurd h (by simp)
    · split at h
      · exact absurd h (by simp)
      · exact (Except.ok.injEq _ _ ▸ congrArg id h).symm ▸ rfl

/-! ### Derived lookup facts for the three keyed selects -/

/-- Battery id lookup finds a stored battery when battery ids are unique. -/
theorem battery_get_by_id_found (st : DBState)
    (hnd : (st.batteries.map Battery.id).Nodup) {b : Battery} (hb : b ∈ st.batteries) :
    BatteryRepository.get_by_id st b.id = .ok (some b) :=
  scalar_filter_found Battery.id st.batteries hnd hb

/-- Battery id lookup reports the absence of an id as `ok none`. -/
theorem battery_get_by_id_none (st : DBState) (i : UUID)
    (h : ∀ b ∈ st.batteries, b.id ≠ i) :
    BatteryRepository.get_by_id st i = .ok none := by
  unfold BatteryRepository.get_by_id
  rw [filter_key_eq_nil Battery.id st.batteries i h]
  rfl

/-- A battery the id lookup yields is stored and has the requested id. -/
theorem battery_get_by_id_inv (st : DBState) (i : UUID) (b : Battery)
    (h : BatteryRepository.get_by_id st i = .ok (some b)) :
    b ∈ st.batteries ∧ b.id = i := by
  unfold BatteryRepository.get_by_id at h
  have hl := scalar_one_or_none_ok_some _ _ h
  have hb : b ∈ st.batteries.filter (fun x => x.id == i) := by
    rw [hl]; exact List.mem_singleton.mpr rfl
  rw [List.mem_filter] at hb
  exact ⟨hb.1, by simpa using hb.2⟩

/-- Device id lookup finds a stored device when device ids are unique. -/
theorem device_get_by_id_found (st : DBState)
    (hnd : (st.devices.map Device.id).Nodup) {d : Device} (hd : d ∈ st.devices) :
    DeviceRepository.get_by_id st d.id = .ok (some d) :=
  scalar_filter_found Device.id st.devices hnd hd

/-- Device id lookup reports the absence of an id as `ok none`. -/
theorem device_get_by_id_none (st : DBState) (i : UUID)
    (h : ∀ d ∈ st.devices, d.id ≠ i) :
    DeviceRepository.get_by_id st i = .ok none := by
  unfold DeviceRepository.get_by_id
  rw [filter_key_eq_nil Device.id st.devices i h]
  rfl

/-- A device the id lookup yields is stored and has the requested id. -/
theorem device_get_by_id_inv (st : DBState) (i : UUID) (d : Device)
    (h : DeviceRepository.get_by_id st i = .ok (some d)) :
    d ∈ st.devices ∧ d.id = i := by
  unfold DeviceRepository.get_by_id at h
  have hl := scalar_one_or_none_ok_some _ _ h
  have hd : d ∈ st.devices.filter (fun x => x.id == i) := by
    rw [hl]; exact List.mem_singleton.mpr rfl
  rw [List.mem_filter] at hd
  exact ⟨hd.1, by simpa using hd.2⟩

/-- Name lookup finds a stored device when device names are unique. -/
theorem device_get_by_name_found (st : DBState)
    (hnd : (st.devices.map Device.name).Nodup) {d : Device} (hd : d ∈ st.devices) :
    DeviceRepository.get_by_name st d.name = .ok (some d) :=
  scalar_filter_found Device.name st.devices hnd hd

/-- Name lookup reports the absence of a name as `ok none`. -/
theorem device_get_by_name_none (st : DBState) (n : String)
    (h : ∀ d ∈ st.devices, d.name ≠ n) :
    DeviceRepository.get_by_name st n = .ok none := by
  unfold DeviceRepository.get_by_name
  rw [filter_key_eq_nil Device.name st.devices n h]
  rfl

/-- Reduction of the `Except` monad's bind on a success. -/
theorem exceptBind_ok {ε α β : Type} (a : α) (f : α → Except ε β) :
    (Except.ok (ε := ε) a >>= f) = f a := rfl

/-- Reduction of the `Except` monad's bind on a raised fault. -/
theorem exceptBind_err {ε α β : Type} (e : ε) (f : α → Except ε β) :
    (Except.error (α := α) e >>= f) = Except.error e := rfl

/-- Reduction of the `Except` monad's pure. -/
theorem exceptPure {ε α : Type} (a : α) :
    (pure a : Except ε α) = Except.ok a := rfl

/-! ### Claim C3 -/

/-- C3: removing a device that holds N associated batteries succeeds and
leaves the battery table the same length, each row unchanged except that a
`device_id` pointing at the removed device is cleared to NULL: no battery
row is deleted, none stays associated to the removed device, and every
battery's identifying and numeric fields survive. -/
theorem c3_device_remove_detaches_batteries (st : DBState) (d : Device)
    (hWF : WF st) (hd : d ∈ st.devices) :
    ∃ st', DeviceService.remove st d.id = .ok (some d, st') ∧
      st'.batteries.length = st.batteries.length ∧
      st'.batteries = st.batteries.map (fun b =>
        if b.device_id = some d.id then { b with device_id := none } else b) ∧
      (∀ b' ∈ st'.batteries, b'.device_id ≠ some d.id) ∧
      (∀ b ∈ st.batteries, ∃ b' ∈ st'.batteries,
        b'.id = b.id ∧ b'.name = b.name ∧ b'.voltage = b.voltage ∧
        b'.residual_capacity = b.residual_capacity ∧ b'.lifespan = b.lifespan) := by
  have hget : DeviceRepository.get_by_id st d.id = .ok (some d) :=
    device_get_by_id_found st hWF.1 hd
  have hmapeq : (DeviceRepository.remove st d).2.batteries =
      st.batteries.map (fun b =>
        if b.device_id = some d.id then { b with device_id := none } else b) := by
    unfold DeviceRepository.remove
    refine List.map_congr_left ?_
    intro b _
    by_cases h : b.device_id = some d.id <;> simp [h]
  refine ⟨(DeviceRepository.remove st d).2, ?_, ?_, hmapeq, ?_, ?_⟩
  · simp only [DeviceService.remove, hget, check_object_exists, exceptBind_ok]
    rfl
  · rw [hmapeq, List.length_map]
  · intro b' hb'
    rw [hmapeq] at hb'
    obtain ⟨b, _, rfl⟩ := List.mem_map.mp hb'
    by_cases h : b.device_id = some d.id <;> simp [h]
  · intro b hb
    rw [hmapeq]
    refine ⟨_, List.mem_map_of_mem _ hb, ?_⟩
    by_cases h : b.device_id = some d.id <;> simp [h]

/-- C3 witness: at the state where `sensor-1` holds five batteries, its
removal commits the detached table. -/
theorem c3_witness : ∃ st', DeviceService.remove stFive devA.id = .ok (some devA, st') ∧
      st'.batteries.length = stFive.batteries.length ∧
      st'.batteries = stFive.batteries.map (fun b =>
        if b.device_id = some devA.id then { b with device_id := none } else b) ∧
      (∀ b' ∈ st'.batteries, b'.device_id ≠ some devA.id) ∧
      (∀ b ∈ stFive.batteries, ∃ b' ∈ st'.batteries,
        b'.id = b.id ∧ b'.name = b.name ∧ b'.voltage = b.voltage ∧
        b'.residual_capacity = b.residual_capacity ∧ b'.lifespan = b.lifespan) :=
  c3_device_remove_detaches_batteries stFive devA (by decide) (by decide)

/-! ### Claim C4 -/

/-- C4: for an id with no matching record, the six id-scoped service
operations all raise the 404 NotFound `HTTPException` of
`check_object_exists`, and the four mutating requests leave the committed
state exactly as it was. -/
theorem c4_missing_id_not_found_no_mutation (st : DBState) (i : UUID)
    (hb : ∀ b ∈ st.batteries, b.id ≠ i) (hd : ∀ d ∈ st.devices, d.id ≠ i) :
    BatteryService.get_by_id st i = .error (.http ⟨404, "Object not found"⟩) ∧
    (∀ data, BatteryService.update st i data = .error (.http ⟨404, "Object not found"⟩)) ∧
    BatteryService.remove st i = .error (.http ⟨404, "Object not found"⟩) ∧
    DeviceService.get_by_id st i = .error (.http ⟨404, "Object not found"⟩) ∧
    (∀ data, DeviceService.update st i data = .error (.http ⟨404, "Object not found"⟩)) ∧
    DeviceService.remove st i = .error (.http ⟨404, "Object not found"⟩) ∧
    (∀ r, runOp st (.updateBattery i r) = st) ∧
    runOp st (.removeBattery i) = st ∧
    (∀ r, runOp st (.updateDevice i r) = st) ∧
    runOp st (.removeDevice i) = st := by
  have hbat : BatteryRepository.get_by_id st i = .ok none := battery_get_by_id_none st i hb
  have hdev : DeviceRepository.get_by_id st i = .ok none := device_get_by_id_none st i hd
  have h1 : BatteryService.get_by_id st i = .error (.http ⟨404, "Object not found"⟩) := by
    simp only [BatteryService.get_by_id, hbat, check_object_exists, exceptBind_err]
  have h2 : ∀ data, BatteryService.update st i data =
      .error (.http ⟨404, "Object not found"⟩) := by
    intro data
    simp only [BatteryService.update, hbat, check_object_exists, exceptBind_err]
  have h3 : BatteryService.remove st i = .error (.http ⟨404, "Object not found"⟩) := by
    simp only [BatteryService.remove, hbat, check_object_exists, exceptBind_err]
  have h4 : DeviceService.get_by_id st i = .error (.http ⟨404, "Object not found"⟩) := by
    simp only [DeviceService.get_by_id, hdev, check_object_exists, exceptBind_err]
  have h5 : ∀ data, DeviceService.update st i data =
      .error (.http ⟨404, "Object not found"⟩) := by
    intro data
    simp only [DeviceService.update, hdev, check_object_exists, exceptBind_err]
  have h6 : DeviceService.remove st i = .error (.http ⟨404, "Object not found"⟩) := by
    simp only [DeviceService.remove, hdev, check_object_exists, exceptBind_err]
  refine ⟨h1, h2, h3, h4, h5, h6, ?_, ?_, ?_, ?_⟩
  · intro r
    cases hp : parseBatteryUpdate r with
    | error e => simp [runOp, hp]
    | ok data => simp [runOp, hp, h2 data]
  · simp [runOp, h3]
  · intro r
    simp [runOp, h5 (parseDeviceUpdate r)]
  · simp [runOp, h6]

/-- C4 witness: id 99 matches nothing at the five-battery state; all six
operations 404 and the four mutating requests commit nothing. -/
theorem c4_witness :
    BatteryService.get_by_id stFive 99 = .error (.http ⟨404, "Object not found"⟩) ∧
    (∀ data, BatteryService.update stFive 99 data = .error (.http ⟨404, "Object not found"⟩)) ∧
    BatteryService.remove stFive 99 = .error (.http ⟨404, "Object not found"⟩) ∧
    DeviceService.get_by_id stFive 99 = .error (.http ⟨404, "Object not found"⟩) ∧
    (∀ data, DeviceService.update stFive 99 data = .error (.http ⟨404, "Object not found"⟩)) ∧
    DeviceService.remove stFive 99 = .error (.http ⟨404, "Object not found"⟩) ∧
    (∀ r, runOp stFive (.updateBattery 99 r) = stFive) ∧
    runOp stFive (.removeBattery 99) = stFive ∧
    (∀ r, runOp stFive (.updateDevice 99 r) = stFive) ∧
    runOp stFive (.removeDevice 99) = stFive :=
  c4_missing_id_not_found_no_mutation stFive 99 (by decide) (by decide)

/-! ### Claim C5 -/

/-- C5: service update applies exactly the fields explicitly present in the
payload. For a stored battery, every field the `BatteryUpdate` payload sets
(including to a value equal to a default or to zero) takes the payload
value and every unset field keeps its prior value; for a stored device the
required `name`/`firmware_version` are always applied and `status` follows
its set-ness. In both cases the id survives, every other record is
untouched, and the other table is untouched. -/
theorem c5_update_touches_only_set_fields :
    (∀ (st : DBState) (b : Battery) (data : BatteryUpdate) (b' : Battery) (st' : DBState),
      WF st → b ∈ st.batteries →
      BatteryService.update st b.id data = .ok (some b', st') →
      b'.id = b.id ∧
      (data.name = none → b'.name = b.name) ∧
      (∀ v, data.name = some v → b'.name = v) ∧
      (data.voltage = none → b'.voltage = b.voltage) ∧
      (∀ v, data.voltage = some v → b'.voltage = v) ∧
      (data.residual_capacity = none → b'.residual_capacity = b.residual_capacity) ∧
      (∀ v, data.residual_capacity = some v → b'.residual_capacity = v) ∧
      (data.lifespan = none → b'.lifespan = b.lifespan) ∧
      (∀ v, data.lifespan = some v → b'.lifespan = v) ∧
      (data.device_id = none → b'.device_id = b.device_id) ∧
      (∀ v, data.device_id = some v → b'.device_id = v) ∧
      st'.devices = st.devices ∧
      st'.next_id = st.next_id ∧
      st'.batteries = st.batteries.map (fun x => if x.id = b.id then b' else x)) ∧
    (∀ (st : DBState) (d : Device) (data : DeviceUpdate) (d' : Device) (st' : DBState),
      WF st → d ∈ st.devices →
      DeviceService.update st d.id data = .ok (some d', st') →
      d'.id = d.id ∧
      d'.name = data.name ∧
      d'.firmware_version = data.firmware_version ∧
      (data.status = none → d'.status = d.status) ∧
      (∀ v, data.status = some v → d'.status = v) ∧
      st'.batteries = st.batteries ∧
      st'.next_id = st.next_id ∧
      st'.devices = st.devices.map (fun x => if x.id = d.id then d' else x)) := by
  constructor
  · intro st b data b' st' hWF hb h
    have hget : BatteryRepository.get_by_id st b.id = .ok (some b) :=
      battery_get_by_id_found st hWF.2.1 hb
    simp only [BatteryService.update, hget, check_object_exists, exceptBind_ok] at h
    cases hrep : BatteryRepository.update st b data with
    | error e => rw [hrep] at h; exact Except.noConfusion h
    | ok p =>
      obtain ⟨updated, st2⟩ := p
      rw [hrep] at h
      simp only [exceptPure, Except.ok.injEq, Prod.mk.injEq, Option.some.injEq] at h
      obtain ⟨hb', hst'⟩ := h
      unfold BatteryRepository.update at hrep
      split at hrep
      · simp only [Except.ok.injEq, Prod.mk.injEq] at hrep
        obtain ⟨hu, hs⟩ := hrep
        subst hu
        subst hs
        subst hb'
        subst hst'
        refine ⟨rfl, ?_, ?_, ?_, ?_, ?_, ?_, ?_, ?_, ?_, ?_, rfl, rfl, ?_⟩
        · intro hn; simp [BatteryUpdate.apply, hn]
        · intro v hn; simp [BatteryUpdate.apply, hn]
        · intro hn; simp [BatteryUpdate.apply, hn]
        · intro v hn; simp [BatteryUpdate.apply, hn]
        · intro hn; simp [BatteryUpdate.apply, hn]
        · intro v hn; simp [BatteryUpdate.apply, hn]
        · intro hn; simp [BatteryUpdate.apply, hn]
        · intro v hn; simp [BatteryUpdate.apply, hn]
        · intro hn; simp [BatteryUpdate.apply, hn]
        · intro v hn; simp [BatteryUpdate.apply, hn]
        · refine List.map_congr_left ?_
          intro x _
          by_cases hx : x.id = b.id <;> simp [hx]
      · exact Except.noConfusion hrep
  · intro st d data d' st' hWF hd h
    have hget : DeviceRepository.get_by_id st d.id = .ok (some d) :=
      device_get_by_id_found st hWF.1 hd
    simp only [DeviceService.update, hget, check_object_exists, exceptBind_ok] at h
    cases hrep : DeviceRepository.update st d data with
    | error e => rw [hrep] at h; exact Except.noConfusion h
    | ok p =>
      obtain ⟨updated, st2⟩ := p
      rw [hrep] at h
      simp only [exceptPure, Except.ok.injEq, Prod.mk.injEq, Option.some.injEq] at h
      obtain ⟨hd', hst'⟩ := h
      unfold DeviceRepository.update at hrep
      split at hrep
      · exact Except.noConfusion hrep
      · simp only [Except.ok.injEq, Prod.mk.injEq] at hrep
        obtain ⟨hu, hs⟩ := hrep
        subst hu
        subst hs
        subst hd'
        subst hst'
        refine ⟨rfl, rfl, rfl, ?_, ?_, rfl, rfl, ?_⟩
        · intro hn; simp [DeviceUpdate.apply, hn]
        · intro v hn; simp [DeviceUpdate.apply, hn]
        · refine List.map_congr_left ?_
          intro x _
          by_cases hx : x.id = d.id <;> simp [hx]

/-- C5 witness: attaching the unassociated sixth battery via the payload
that only sets `device_id` keeps its id, name and numeric fields and
touches no other record. -/
theorem c5_witness :
    (cell 6 (some 0)).id = (cell 6 none).id ∧
    (cell 6 (some 0)).name = (cell 6 none).name ∧
    (cell 6 (some 0)).device_id = some 0 ∧
    stFiveAttached.devices = stFive.devices := by
  obtain ⟨hid, hname, -, -, -, -, -, -, -, -, hdev, hdevs, -, -⟩ :=
    (c5_update_touches_only_set_fields).1 stFive (cell 6 none) attachToDevA
      (cell 6 (some 0)) stFiveAttached (by decide) (by decide) (by decide)
  exact ⟨hid, hname rfl, hdev (some 0) rfl, hdevs⟩

/-! ### Shapes of successful service operations

Each id-scoped service operation succeeds only through
`check_object_exists`, so a success names a stored record with the
requested id; these lemmas also pin down the committed state.
-/

/-- Shape of a successful battery service lookup. -/
theorem battery_service_get_ok (st : DBState) (i : UUID) (r : Option Battery)
    (h : BatteryService.get_by_id st i = .ok r) :
    ∃ b, b ∈ st.batteries ∧ b.id = i ∧ r = some b := by
  cases hrep : BatteryRepository.get_by_id st i with
  | error e =>
    have hs : BatteryService.get_by_id st i = .error (.storage e) := by
      simp only [BatteryService.get_by_id, hrep, check_object_exists, exceptBind_err]
    rw [hs] at h; exact Except.noConfusion h
  | ok o =>
    cases o with
    | none =>
      have hs : BatteryService.get_by_id st i = .error (.http ⟨404, "Object not found"⟩) := by
        simp only [BatteryService.get_by_id, hrep, check_object_exists, exceptBind_err]
      rw [hs] at h; exact Except.noConfusion h
    | some b =>
      obtain ⟨hmem, hid⟩ := battery_get_by_id_inv st i b hrep
      simp only [BatteryService.get_by_id, hrep, check_object_exists, exceptBind_ok,
        exceptPure, Except.ok.injEq] at h
      exact ⟨b, hmem, hid, h.symm⟩

/-- Shape of a successful battery service update: the updated record is the
field application to a stored record with the requested id, and the
committed battery table replaces exactly that row. -/
theorem battery_service_update_ok (st : DBState) (i : UUID) (data : BatteryUpdate)
    (r : Option Battery) (st' : DBState)
    (h : BatteryService.update st i data = .ok (r, st')) :
    ∃ b, b ∈ st.batteries ∧ b.id = i ∧ r = some (data.apply b) ∧
      st' = { st with batteries := st.batteries.map (fun x =>
        if x.id == b.id then data.apply b else x) } := by
  cases hrep : BatteryRepository.get_by_id st i with
  | error e =>
    have hs : BatteryService.update st i data = .error (.storage e) := by
      simp only [BatteryService.update, hrep, check_object_exists, exceptBind_err]
    rw [hs] at h; exact Except.noConfusion h
  | ok o =>
    cases o with
    | none =>
      have hs : BatteryService.update st i data = .error (.http ⟨404, "Object not found"⟩) := by
        simp only [BatteryService.update, hrep, check_object_exists, exceptBind_err]
      rw [hs] at h; exact Except.noConfusion h
    | some b =>
      obtain ⟨hmem, hid⟩ := battery_get_by_id_inv st i b hrep
      simp only [BatteryService.update, hrep, check_object_exists, exceptBind_ok] at h
      cases hrep2 : BatteryRepository.update st b data with
      | error e => rw [hrep2] at h; exact Except.noConfusion h
      | ok p =>
        obtain ⟨updated, st2⟩ := p
        rw [hrep2] at h
        simp only [exceptPure, Except.ok.injEq, Prod.mk.injEq, Option.some.injEq] at h
        obtain ⟨hr, hst⟩ := h
        unfold BatteryRepository.update at hrep2
        split at hrep2
        · simp only [Except.ok.injEq, Prod.mk.injEq] at hrep2
          exact ⟨b, hmem, hid, by rw [← hr, ← hrep2.1], by rw [← hst, ← hrep2.2]⟩
        · exact Except.noConfusion hrep2

/-- Shape of a successful battery service removal: the returned record is a
stored one with the requested id and the committed table drops its row. -/
theorem battery_service_remove_ok (st : DBState) (i : UUID)
    (r : Option Battery) (st' : DBState)
    (h : BatteryService.remove st i = .ok (r, st')) :
    ∃ b, b ∈ st.batteries ∧ b.id = i ∧ r = some b ∧
      st' = { st with batteries := st.batteries.filter (fun x => x.id != b.id) } := by
  cases hrep : BatteryRepository.get_by_id st i with
  | error e =>
    have hs : BatteryService.remove st i = .error (.storage e) := by
      simp only [BatteryService.remove, hrep, check_object_exists, exceptBind_err]
    rw [hs] at h; exact Except.noConfusion h
  | ok o =>
    cases o with
    | none =>
      have hs : BatteryService.remove st i = .error (.http ⟨404, "Object not found"⟩) := by
        simp only [BatteryService.remove, hrep, check_object_exists, exceptBind_err]
      rw [hs] at h; exact Except.noConfusion h
    | some b =>
      obtain ⟨hmem, hid⟩ := battery_get_by_id_inv st i b hrep
      simp only [BatteryService.remove, hrep, check_object_exists, exceptBind_ok,
        BatteryRepository.remove, exceptPure, Except.ok.injEq, Prod.mk.injEq,
        Option.some.injEq] at h
      exact ⟨b, hmem, hid, h.1.symm, h.2.symm⟩

/-- Shape of a successful device service lookup. -/
theorem device_service_get_ok (st : DBState) (i : UUID) (r : Option Device)
    (h : DeviceService.get_by_id st i = .ok r) :
    ∃ d, d ∈ st.devices ∧ d.id = i ∧ r = some d := by
  cases hrep : DeviceRepository.get_by_id st i with
  | error e =>
    have hs : DeviceService.get_by_id st i = .error (.storage e) := by
      simp only [DeviceService.get_by_id, hrep, check_object_exists, exceptBind_err]
    rw [hs] at h; exact Except.noConfusion h
  | ok o =>
    cases o with
    | none =>
      have hs : DeviceService.get_by_id st i = .error (.http ⟨404, "Object not found"⟩) := by
        simp only [DeviceService.get_by_id, hrep, check_object_exists, exceptBind_err]
      rw [hs] at h; exact Except.noConfusion h
    | some d =>
      obtain ⟨hmem, hid⟩ := device_get_by_id_inv st i d hrep
      simp only [DeviceService.get_by_id, hrep, check_object_exists, exceptBind_ok,
        exceptPure, Except.ok.injEq] at h
      exact ⟨d, hmem, hid, h.symm⟩

/-- Shape of a successful device service update. -/
theorem device_service_update_ok (st : DBState) (i : UUID) (data : DeviceUpdate)
    (r : Option Device) (st' : DBState)
    (h : DeviceService.update st i data = .ok (r, st')) :
    ∃ d, d ∈ st.devices ∧ d.id = i ∧ r = some (data.apply d) ∧
      st' = { st with devices := st.devices.map (fun x =>
        if x.id == d.id then data.apply d else x) } := by
  cases hrep : DeviceRepository.get_by_id st i with
  | error e =>
    have hs : DeviceService.update st i data = .error (.storage e) := by
      simp only [DeviceService.update, hrep, check_object_exists, exceptBind_err]
    rw [hs] at h; exact Except.noConfusion h
  | ok o =>
    cases o with
    | none =>
      have hs : DeviceService.update st i data = .error (.http ⟨404, "Object not found"⟩) := by
        simp only [DeviceService.update, hrep, check_object_exists, exceptBind_err]
      rw [hs] at h; exact Except.noConfusion h
    | some d =>
      obtain ⟨hmem, hid⟩ := device_get_by_id_inv st i d hrep
      simp only [DeviceService.update, hrep, check_object_exists, exceptBind_ok] at h
      cases hrep2 : DeviceRepository.update st d data with
      | error e => rw [hrep2] at h; exact Except.noConfusion h
      | ok p =>
        obtain ⟨updated, st2⟩ := p
        rw [hrep2] at h
        simp only [exceptPure, Except.ok.injEq, Prod.mk.injEq, Option.some.injEq] at h
        obtain ⟨hr, hst⟩ := h
        unfold DeviceRepository.update at hrep2
        split at hrep2
        · exact Except.noConfusion hrep2
        · simp only [Except.ok.injEq, Prod.mk.injEq] at hrep2
          exact ⟨d, hmem, hid, by rw [← hr, ← hrep2.1], by rw [← hst, ← hrep2.2]⟩

/-- Shape of a successful device service removal: the device row goes, the
loaded batteries are dis-associated. -/
theorem device_service_remove_ok (st : DBState) (i : UUID)
    (r : Option Device) (st' : DBState)
    (h : DeviceService.remove st i = .ok (r, st')) :
    ∃ d, d ∈ st.devices ∧ d.id = i ∧ r = some d ∧
      st' = { st with
        devices := st.devices.filter (fun x => x.id != d.id)
        batteries := st.batteries.map (fun b =>
          if b.device_id == some d.id then { b with device_id := none } else b) } := by
  cases hrep : DeviceRepository.get_by_id st i with
  | error e =>
    have hs : DeviceService.remove st i = .error (.storage e) := by
      simp only [DeviceService.remove, hrep, check_object_exists, exceptBind_err]
    rw [hs] at h; exact Except.noConfusion h
  | ok o =>
    cases o with
    | none =>
      have hs : DeviceService.remove st i = .error (.http ⟨404, "Object not found"⟩) := by
        simp only [DeviceService.remove, hrep, check_object_exists, exceptBind_err]
      rw [hs] at h; exact Except.noConfusion h
    | some d =>
      obtain ⟨hmem, hid⟩ := device_get_by_id_inv st i d hrep
      simp only [DeviceService.remove, hrep, check_object_exists, exceptBind_ok,
        DeviceRepository.remove, exceptPure, Except.ok.injEq, Prod.mk.injEq,
        Option.some.injEq] at h
      exact ⟨d, hmem, hid, h.1.symm, h.2.symm⟩

/-- A successful device service create leaves the battery table untouched
and appends the new device row. -/
theorem device_service_create_ok (st : DBState) (data : DeviceCreate)
    (dev : Device) (st' : DBState)
    (h : DeviceService.create st data = .ok (dev, st')) :
    dev = ⟨st.next_id, data.name, data.firmware_version, data.status⟩ ∧
    st' = { st with devices := st.devices ++ [dev], next_id := st.next_id + 1 } := by
  unfold DeviceService.create at h
  cases hrep : DeviceRepository.create st data with
  | error e => rw [hrep] at h; exact Except.noConfusion h
  | ok p =>
    obtain ⟨d0, st0⟩ := p
    rw [hrep] at h
    simp only [Except.ok.injEq, Prod.mk.injEq] at h
    obtain ⟨hdev, hst⟩ := h
    unfold DeviceRepository.create at hrep
    split at hrep
    · exact Except.noConfusion hrep
    · simp only [Except.ok.injEq, Prod.mk.injEq] at hrep
      obtain ⟨h1, h2⟩ := hrep
      subst hdev
      subst hst
      subst h1
      exact ⟨rfl, h2.symm⟩

/-! ### Claim C7 -/

/-- C7: create-then-getById round trip. The created battery carries exactly
the caller-supplied fields plus the generated id and the defaulted NULL
association, and the service lookup at the generated id returns it; a
device whose name is free is created with its supplied fields (with
`status` defaulting to `false` when the raw payload omits it) and its
lookup at the generated id returns it. -/
theorem c7_create_get_round_trip (st : DBState) (hWF : WF st)
    (bdata : BatteryCreate) (ddata : DeviceCreate)
    (hname : ∀ d ∈ st.devices, d.name ≠ ddata.name) :
    (BatteryService.get_by_id (BatteryService.create st bdata).2
        (BatteryService.create st bdata).1.id =
      .ok (some (BatteryService.create st bdata).1) ∧
     (BatteryService.create st bdata).1.name = bdata.name ∧
     (BatteryService.create st bdata).1.voltage = bdata.voltage ∧
     (BatteryService.create st bdata).1.residual_capacity = bdata.residual_capacity ∧
     (BatteryService.create st bdata).1.lifespan = bdata.lifespan ∧
     (BatteryService.create st bdata).1.device_id = none) ∧
    (∃ dev st', DeviceService.create st ddata = .ok (dev, st') ∧
      DeviceService.get_by_id st' dev.id = .ok (some dev) ∧
      dev.name = ddata.name ∧ dev.firmware_version = ddata.firmware_version ∧
      dev.status = ddata.status) ∧
    (∀ r : RawDeviceCreate, r.status = none → (parseDeviceCreate r).status = false) := by
  refine ⟨?_, ?_, ?_⟩
  · have hfresh : ∀ x ∈ st.batteries, x.id ≠ st.next_id :=
      fun x hx => Nat.ne_of_lt (hWF.2.2.2.2.1 x hx)
    have hfilter : ((BatteryService.create st bdata).2).batteries.filter
        (fun x => x.id == (BatteryService.create st bdata).1.id) =
        [(BatteryService.create st bdata).1] := by
      show (st.batteries ++ [_]).filter _ = _
      rw [List.filter_append]
      rw [filter_key_eq_nil Battery.id st.batteries
        ((BatteryService.create st bdata).1.id) hfresh]
      simp [BatteryService.create, BatteryRepository.create]
    have hget : BatteryRepository.get_by_id (BatteryService.create st bdata).2
        (BatteryService.create st bdata).1.id =
        .ok (some (BatteryService.create st bdata).1) := by
      unfold BatteryRepository.get_by_id
      rw [hfilter]
      rfl
    refine ⟨?_, rfl, rfl, rfl, rfl, rfl⟩
    simp only [BatteryService.get_by_id, hget, check_object_exists, exceptBind_ok, exceptPure]
  · have hnotany : st.devices.any (fun d => d.name == ddata.name) = false := by
      rw [List.any_eq_false]
      intro d hd
      simp [hname d hd]
    have hcreate : DeviceRepository.create st ddata =
        .ok (⟨st.next_id, ddata.name, ddata.firmware_version, ddata.status⟩,
          { st with
            devices := st.devices ++ [⟨st.next_id, ddata.name, ddata.firmware_version, ddata.status⟩]
            next_id := st.next_id + 1 }) := by
      unfold DeviceRepository.create
      rw [hnotany]
      rfl
    refine ⟨⟨st.next_id, ddata.name, ddata.firmware_version, ddata.status⟩,
      { st with
        devices := st.devices ++ [⟨st.next_id, ddata.name, ddata.firmware_version, ddata.status⟩]
        next_id := st.next_id + 1 },
      ?_, ?_, rfl, rfl, rfl⟩
    · simp only [DeviceService.create, hcreate]
    · have hfresh : ∀ x ∈ st.devices, x.id ≠ st.next_id :=
        fun x hx => Nat.ne_of_lt (hWF.2.2.2.1 x hx)
      have hfilter : (st.devices ++
          [(⟨st.next_id, ddata.name, ddata.firmware_version, ddata.status⟩ : Device)]).filter
          (fun x => x.id == st.next_id) =
          [⟨st.next_id, ddata.name, ddata.firmware_version, ddata.status⟩] := by
        rw [List.filter_append]
        rw [filter_key_eq_nil Device.id st.devices _ hfresh]
        simp
      have hget : DeviceRepository.get_by_id
          { st with
            devices := st.devices ++ [⟨st.next_id, ddata.name, ddata.firmware_version, ddata.status⟩]
            next_id := st.next_id + 1 }
          st.next_id =
          .ok (some ⟨st.next_id, ddata.name, ddata.firmware_version, ddata.status⟩) := by
        unfold DeviceRepository.get_by_id
        show scalar_one_or_none ((st.devices ++ [_]).filter _) = _
        rw [hfilter]
        rfl
      simp only [DeviceService.get_by_id, hget, check_object_exists, exceptBind_ok, exceptPure]
  · intro r hr
    simp [parseDeviceCreate, hr]

/-- C7 witness: concrete round trips at the one-device state. -/
theorem c7_witness :
    (BatteryService.get_by_id
        (BatteryService.create stOneDevice ⟨"cell-a", 4, 2, 500⟩).2
        (BatteryService.create stOneDevice ⟨"cell-a", 4, 2, 500⟩).1.id =
      .ok (some (BatteryService.create stOneDevice ⟨"cell-a", 4, 2, 500⟩).1)) ∧
    (∃ dev st', DeviceService.create stOneDevice ⟨"sensor-2", "1.0", true⟩ = .ok (dev, st') ∧
      DeviceService.get_by_id st' dev.id = .ok (some dev) ∧ dev.name = "sensor-2") := by
  obtain ⟨⟨hget, -, -, -, -, -⟩, ⟨dev, st', hc, hg, hn, -, -⟩, -⟩ :=
    c7_create_get_round_trip stOneDevice (by decide) ⟨"cell-a", 4, 2, 500⟩
      ⟨"sensor-2", "1.0", true⟩ (by decide)
  exact ⟨hget, dev, st', hc, hg, hn⟩

/-! ### Claim C9 -/

/-- C9: under the uniqueness the database enforces on primary keys and on
the device name column, the repository lookups by id and by name never
raise: each always returns an `ok` result, and that result is `none`
exactly when no row matches — absence is an explicit signal left to the
caller. -/
theorem c9_lookups_signal_not_found (st : DBState) (hWF : WF st) :
    (∀ i, ∃ r, BatteryRepository.get_by_id st i = .ok r) ∧
    (∀ i, BatteryRepository.get_by_id st i = .ok none ↔ ∀ b ∈ st.batteries, b.id ≠ i) ∧
    (∀ i, ∃ r, DeviceRepository.get_by_id st i = .ok r) ∧
    (∀ i, DeviceRepository.get_by_id st i = .ok none ↔ ∀ d ∈ st.devices, d.id ≠ i) ∧
    (∀ n, ∃ r, DeviceRepository.get_by_name st n = .ok r) ∧
    (∀ n, DeviceRepository.get_by_name st n = .ok none ↔ ∀ d ∈ st.devices, d.name ≠ n) := by
  refine ⟨?_, ?_, ?_, ?_, ?_, ?_⟩
  · intro i
    exact scalar_one_or_none_ok_of_len_le_one _
      (length_filter_key_le_one Battery.id st.batteries hWF.2.1 i)
  · intro i
    constructor
    · intro h b hb hid
      have hnil := scalar_one_or_none_ok_none _ h
      have : b ∈ st.batteries.filter (fun x => x.id == i) :=
        List.mem_filter.mpr ⟨hb, by simp [hid]⟩
      rw [hnil] at this
      cases this
    · exact battery_get_by_id_none st i
  · intro i
    exact scalar_one_or_none_ok_of_len_le_one _
      (length_filter_key_le_one Device.id st.devices hWF.1 i)
  · intro i
    constructor
    · intro h d hd hid
      have hnil := scalar_one_or_none_ok_none _ h
      have : d ∈ st.devices.filter (fun x => x.id == i) :=
        List.mem_filter.mpr ⟨hd, by simp [hid]⟩
      rw [hnil] at this
      cases this
    · exact device_get_by_id_none st i
  · intro n
    exact scalar_one_or_none_ok_of_len_le_one _
      (length_filter_key_le_one Device.name st.devices hWF.2.2.1 n)
  · intro n
    constructor
    · intro h d hd hn
      have hnil := scalar_one_or_none_ok_none _ h
      have : d ∈ st.devices.filter (fun x => x.name == n) :=
        List.mem_filter.mpr ⟨hd, by simp [hn]⟩
      rw [hnil] at this
      cases this
    · exact device_get_by_name_none st n

/-- C9 witness: concrete lookups at the five-battery state. -/
theorem c9_witness :
    (∃ r, BatteryRepository.get_by_id stFive 99 = .ok r) ∧
    (BatteryRepository.get_by_id stFive 99 = .ok none ↔ ∀ b ∈ stFive.batteries, b.id ≠ 99) ∧
    (∃ r, DeviceRepository.get_by_name stFive "absent" = .ok r) := by
  obtain ⟨h1, h2, -, -, h5, -⟩ := c9_lookups_signal_not_found stFive (by decide)
  exact ⟨h1 99, h2 99, h5 "absent"⟩

/-! ### Claim C10 -/

/-- C10: despite the services' declared optional return type, none of the
id-scoped operations can return a None value: every success of
`get_by_id`, `update` or `remove` (for both entities) carries `some`
record whose id is the requested id, and when no record matches the id the
operation raises the 404 NotFound fault instead of returning None. -/
theorem c10_service_none_unreachable (st : DBState) (i : UUID) :
    (∀ r, BatteryService.get_by_id st i = .ok r → ∃ b, r = some b ∧ b.id = i) ∧
    (∀ data r st', BatteryService.update st i data = .ok (r, st') →
      ∃ b, r = some b ∧ b.id = i) ∧
    (∀ r st', BatteryService.remove st i = .ok (r, st') → ∃ b, r = some b ∧ b.id = i) ∧
    (∀ r, DeviceService.get_by_id st i = .ok r → ∃ d, r = some d ∧ d.id = i) ∧
    (∀ data r st', DeviceService.update st i data = .ok (r, st') →
      ∃ d, r = some d ∧ d.id = i) ∧
    (∀ r st', DeviceService.remove st i = .ok (r, st') → ∃ d, r = some d ∧ d.id = i) ∧
    ((∀ b ∈ st.batteries, b.id ≠ i) →
      BatteryService.get_by_id st i = .error (.http ⟨404, "Object not found"⟩)) ∧
    ((∀ d ∈ st.devices, d.id ≠ i) →
      DeviceService.get_by_id st i = .error (.http ⟨404, "Object not found"⟩)) := by
  refine ⟨?_, ?_, ?_, ?_, ?_, ?_, ?_, ?_⟩
  · intro r h
    obtain ⟨b, -, hid, hr⟩ := battery_service_get_ok st i r h
    exact ⟨b, hr, hid⟩
  · intro data r st' h
    obtain ⟨b, -, hid, hr, -⟩ := battery_service_update_ok st i data r st' h
    exact ⟨data.apply b, hr, hid⟩
  · intro r st' h
    obtain ⟨b, -, hid, hr, -⟩ := battery_service_remove_ok st i r st' h
    exact ⟨b, hr, hid⟩
  · intro r h
    obtain ⟨d, -, hid, hr⟩ := device_service_get_ok st i r h
    exact ⟨d, hr, hid⟩
  · intro data r st' h
    obtain ⟨d, -, hid, hr, -⟩ := device_service_update_ok st i data r st' h
    exact ⟨data.apply d, hr, hid⟩
  · intro r st' h
    obtain ⟨d, -, hid, hr, -⟩ := device_service_remove_ok st i r st' h
    exact ⟨d, hr, hid⟩
  · intro hb
    simp only [BatteryService.get_by_id, battery_get_by_id_none st i hb,
      check_object_exists, exceptBind_err]
  · intro hd
    simp only [DeviceService.get_by_id, device_get_by_id_none st i hd,
      check_object_exists, exceptBind_err]

/-- C10 witness: concrete successes carry `some` of the requested id, and a
missing id gives the 404 fault, never None. -/
theorem c10_witness :
    (∃ b, some (cell 3 (some 0)) = some b ∧ b.id = 3) ∧
    BatteryService.get_by_id stFive 99 = .error (.http ⟨404, "Object not found"⟩) := by
  obtain ⟨h1, -, -, -, -, -, h404, -⟩ := c10_service_none_unreachable stFive 3
  obtain ⟨hx, -, -, -, -, -, hb404, -⟩ := c10_service_none_unreachable stFive 99
  exact ⟨h1 (some (cell 3 (some 0))) (by decide), hb404 (by decide)⟩

/-! ### Claim C8 -/

/-- Validated battery-creation payloads carry non-negative numerics. -/
theorem parseBatteryCreate_ok_nonneg (r : RawBatteryCreate) (d : BatteryCreate)
    (h : parseBatteryCreate r = .ok d) :
    0 ≤ d.voltage ∧ 0 ≤ d.residual_capacity ∧ 0 ≤ d.lifespan := by
  by_cases h1 : r.voltage < 0
  · simp [parseBatteryCreate, h1] at h
  · by_cases h2 : r.residual_capacity < 0
    · simp [parseBatteryCreate, h1, h2] at h
    · by_cases h3 : r.lifespan < 0
      · simp [parseBatteryCreate, h1, h2, h3] at h
      · simp only [parseBatteryCreate, if_neg h1, if_neg h2, if_neg h3,
          Except.ok.injEq] at h
        subst h
        exact ⟨le_of_not_lt h1, le_of_not_lt h2, le_of_not_lt h3⟩

/-- Validated battery-update payloads carry non-negative numerics in every
explicitly set numeric field. -/
theorem parseBatteryUpdate_ok_nonneg (r : RawBatteryUpdate) (d : BatteryUpdate)
    (h : parseBatteryUpdate r = .ok d) :
    (∀ q, d.voltage = some q → 0 ≤ q) ∧
    (∀ q, d.residual_capacity = some q → 0 ≤ q) ∧
    (∀ q, d.lifespan = some q → 0 ≤ q) := by
  by_cases h1 : ∃ q ∈ r.voltage, q < 0
  · simp only [parseBatteryUpdate, if_pos h1] at h
    exact Except.noConfusion h
  · by_cases h2 : ∃ q ∈ r.residual_capacity, q < 0
    · simp only [parseBatteryUpdate, if_neg h1, if_pos h2] at h
      exact Except.noConfusion h
    · by_cases h3 : ∃ q ∈ r.lifespan, q < 0
      · simp only [parseBatteryUpdate, if_neg h1, if_neg h2, if_pos h3] at h
        exact Except.noConfusion h
      · simp only [parseBatteryUpdate, if_neg h1, if_neg h2, if_neg h3,
          Except.ok.injEq] at h
        subst h
        push_neg at h1 h2 h3
        refine ⟨?_, ?_, ?_⟩
        · intro q hq
          exact h1 q (by rw [Option.mem_def]; exact hq)
        · intro q hq
          exact h2 q (by rw [Option.mem_def]; exact hq)
        · intro q hq
          exact h3 q (by rw [Option.mem_def]; exact hq)

/-- One committed request preserves the battery non-negativity invariant. -/
theorem batteryInv_runOp (st : DBState) (op : Op) (hInv : BatteryInv st) :
    BatteryInv (runOp st op) := by
  cases op with
  | createBattery r =>
    cases hp : parseBatteryCreate r with
    | error e => simpa [runOp, hp] using hInv
    | ok data =>
      obtain ⟨h1, h2, h3⟩ := parseBatteryCreate_ok_nonneg r data hp
      intro b hb
      simp only [runOp, hp, BatteryService.create, BatteryRepository.create,
        List.mem_append, List.mem_singleton] at hb
      rcases hb with hb | rfl
      · exact hInv b hb
      · exact ⟨h1, h2, h3⟩
  | updateBattery i r =>
    cases hp : parseBatteryUpdate r with
    | error e => simpa [runOp, hp] using hInv
    | ok data =>
      cases hu : BatteryService.update st i data with
      | error e => simpa [runOp, hp, hu] using hInv
      | ok p =>
        obtain ⟨rr, st2⟩ := p
        obtain ⟨hv, hrc, hls⟩ := parseBatteryUpdate_ok_nonneg r data hp
        obtain ⟨b0, hb0, -, -, hst2⟩ := battery_service_update_ok st i data rr st2 hu
        have hstep : runOp st (.updateBattery i r) = st2 := by simp [runOp, hp, hu]
        rw [hstep, hst2]
        intro b hb
        simp only [List.mem_map] at hb
        obtain ⟨x, hx, rfl⟩ := hb
        by_cases hxx : (x.id == b0.id) = true
        · simp only [if_pos hxx]
          refine ⟨?_, ?_, ?_⟩
          · cases hvv : data.voltage with
            | none => simpa [BatteryUpdate.apply, hvv] using (hInv b0 hb0).1
            | some q => simpa [BatteryUpdate.apply, hvv] using hv q hvv
          · cases hvv : data.residual_capacity with
            | none => simpa [BatteryUpdate.apply, hvv] using (hInv b0 hb0).2.1
            | some q => simpa [BatteryUpdate.apply, hvv] using hrc q hvv
          · cases hvv : data.lifespan with
            | none => simpa [BatteryUpdate.apply, hvv] using (hInv b0 hb0).2.2
            | some q => simpa [BatteryUpdate.apply, hvv] using hls q hvv
        · simp only [if_neg hxx]
          exact hInv x hx
  | removeBattery i =>
    cases hu : BatteryService.remove st i with
    | error e => simpa [runOp, hu] using hInv
    | ok p =>
      obtain ⟨rr, st2⟩ := p
      obtain ⟨b0, -, -, -, hst2⟩ := battery_service_remove_ok st i rr st2 hu
      have hstep : runOp st (.removeBattery i) = st2 := by simp [runOp, hu]
      rw [hstep, hst2]
      intro b hb
      exact hInv b (List.mem_filter.mp hb).1
  | createDevice r =>
    cases hu : DeviceService.create st (parseDeviceCreate r) with
    | error e => simpa [runOp, hu] using hInv
    | ok p =>
      obtain ⟨dev, st2⟩ := p
      obtain ⟨-, hst2⟩ := device_service_create_ok st (parseDeviceCreate r) dev st2 hu
      have hstep : runOp st (.createDevice r) = st2 := by simp [runOp, hu]
      rw [hstep, hst2]
      exact hInv
  | updateDevice i r =>
    cases hu : DeviceService.update st i (parseDeviceUpdate r) with
    | error e => simpa [runOp, hu] using hInv
    | ok p =>
      obtain ⟨rr, st2⟩ := p
      obtain ⟨d0, -, -, -, hst2⟩ :=
        device_service_update_ok st i (parseDeviceUpdate r) rr st2 hu
      have hstep : runOp st (.updateDevice i r) = st2 := by simp [runOp, hu]
      rw [hstep, hst2]
      exact hInv
  | removeDevice i =>
    cases hu : DeviceService.remove st i with
    | error e => simpa [runOp, hu] using hInv
    | ok p =>
      obtain ⟨rr, st2⟩ := p
      obtain ⟨d0, -, -, -, hst2⟩ := device_service_remove_ok st i rr st2 hu
      have hstep : runOp st (.removeDevice i) = st2 := by simp [runOp, hu]
      rw [hstep, hst2]
      intro b hb
      simp only [List.mem_map] at hb
      obtain ⟨x, hx, rfl⟩ := hb
      by_cases hxx : (x.device_id == some d0.id) = true
      · simp only [if_pos hxx]
        exact hInv x hx
      · simp only [if_neg hxx]
        exact hInv x hx

/-- C8: the non-negativity of `voltage`, `residual_capacity` and `lifespan`.
Inputs carrying a negative value in any of these fields are rejected at the
validation boundary of create and of update (with the offending field
named), and every battery record in any state reachable from the empty
database through committed public requests has all three fields ≥ 0. -/
theorem c8_battery_numerics_nonnegative :
    (∀ r : RawBatteryCreate,
      (r.voltage < 0 ∨ r.residual_capacity < 0 ∨ r.lifespan < 0) →
      ∃ f, parseBatteryCreate r = .error (.notNonNegative f)) ∧
    (∀ r : RawBatteryUpdate,
      ((∃ q ∈ r.voltage, q < 0) ∨ (∃ q ∈ r.residual_capacity, q < 0) ∨
        (∃ q ∈ r.lifespan, q < 0)) →
      ∃ f, parseBatteryUpdate r = .error (.notNonNegative f)) ∧
    (∀ ops : List Op, BatteryInv (runOps emptyState ops)) := by
  refine ⟨?_, ?_, ?_⟩
  · intro r h
    by_cases h1 : r.voltage < 0
    · exact ⟨"voltage", by simp [parseBatteryCreate, h1]⟩
    · by_cases h2 : r.residual_capacity < 0
      · exact ⟨"residual_capacity", by simp [parseBatteryCreate, h1, h2]⟩
      · by_cases h3 : r.lifespan < 0
        · exact ⟨"lifespan", by simp [parseBatteryCreate, h1, h2, h3]⟩
        · rcases h with h | h | h
          · exact absurd h h1
          · exact absurd h h2
          · exact absurd h h3
  · intro r h
    by_cases h1 : ∃ q ∈ r.voltage, q < 0
    · exact ⟨"voltage", by simp only [parseBatteryUpdate, if_pos h1]⟩
    · by_cases h2 : ∃ q ∈ r.residual_capacity, q < 0
      · exact ⟨"residual_capacity", by simp only [parseBatteryUpdate, if_neg h1, if_pos h2]⟩
      · by_cases h3 : ∃ q ∈ r.lifespan, q < 0
        · exact ⟨"lifespan", by simp only [parseBatteryUpdate, if_neg h1, if_neg h2, if_pos h3]⟩
        · rcases h with h | h | h
          · exact absurd h h1
          · exact absurd h h2
          · exact absurd h h3
  · intro ops
    have hrun : ∀ s, BatteryInv s → BatteryInv (runOps s ops) := by
      induction ops with
      | nil => exact fun s hs => hs
      | cons op rest ih => exact fun s hs => ih (runOp s op) (batteryInv_runOp s op hs)
    refine hrun emptyState ?_
    intro b hb
    cases hb

/-- C8 witness: a negative creation payload and a negative update payload
are both rejected with the offending field named, and a concrete committed
request sequence keeps the invariant. -/
theorem c8_witness :
    (∃ f, parseBatteryCreate
      { name := "cell-a", voltage := -1, residual_capacity := 2, lifespan := 500,
        device_id := none } = .error (.notNonNegative f)) ∧
    (∃ f, parseBatteryUpdate
      { name := none, voltage := none, residual_capacity := some (-2), lifespan := none,
        device_id := none } = .error (.notNonNegative f)) ∧
    BatteryInv (runOps emptyState
      [.createDevice ⟨"sensor-1", "1.0", none⟩,
       .createBattery ⟨"cell-a", 4, 2, 500, none⟩,
       .updateBattery 1 ⟨none, some 0, none, none, some (some 0)⟩]) := by
  obtain ⟨h1, h2, h3⟩ := c8_battery_numerics_nonnegative
  exact ⟨h1 _ (Or.inl (by norm_num)),
    h2 _ (Or.inr (Or.inl ⟨-2, by simp, by norm_num⟩)),
    h3 _⟩
